import Mathlib

set_option maxRecDepth 16000

/-!
Verification of the carefree-learn example repository against its
specification. The repository consists of the Titanic notebook, the Iris
notebook (which also lists the helper script run_sklearn.py) and a
Dockerfile.

Two embeddings are developed below, both read off the source:
* a functional model of the submission-writing cell of the Titanic notebook
  (cell 9), with Python strings modelled as lists of characters;
* a syntactic model of the authored statements of both notebooks, of
  run_sklearn.py and of the Dockerfile, over which the structural claims
  (single external invocations, step order, files read and written,
  error handling, concurrency keyword) are settled.
-/

/- ### Python string primitives used by the submission cell -/

/-- Whitespace test used by Python str.strip (the ASCII whitespace set). -/
def isPySpace (c : Char) : Bool :=
  c = ' ' || c = '\t' || c = '\n' || c = '\r' || c = '\x0b' || c = '\x0c'

/-- Python str.strip: drop leading and trailing whitespace. -/
def pystrip (s : List Char) : List Char :=
  ((s.dropWhile isPySpace).reverse.dropWhile isPySpace).reverse

/-- Python str.split with an explicit one-character separator: on the empty
string it yields one empty piece, and each occurrence of the separator starts
a new piece. -/
def pysplit (sep : Char) : List Char → List (List Char)
  | [] => [[]]
  | c :: rest =>
    if c = sep then [] :: pysplit sep rest
    else (c :: (pysplit sep rest).headD []) :: (pysplit sep rest).tail

/-- Decimal digit character for a digit value; values above nine are clamped
to the last digit (they never occur). -/
def digitChar (d : Nat) : Char :=
  if d = 0 then '0' else if d = 1 then '1' else if d = 2 then '2'
  else if d = 3 then '3' else if d = 4 then '4' else if d = 5 then '5'
  else if d = 6 then '6' else if d = 7 then '7' else if d = 8 then '8'
  else '9'

/-- Fuel-driven most-significant-first decimal rendering of a natural
number; fuel n + 1 always suffices for n. -/
def natReprAux : Nat → Nat → List Char
  | 0, _ => []
  | fuel + 1, n =>
    if n < 10 then [digitChar n]
    else natReprAux fuel (n / 10) ++ [digitChar (n % 10)]

/-- Decimal rendering of a natural number. -/
def natRepr (n : Nat) : List Char := natReprAux (n + 1) n

/-- Decimal rendering of an integer, as the Python f-string renders the
int returned by c.item(). -/
def intRepr (i : Int) : List Char :=
  if i < 0 then '-' :: natRepr i.natAbs else natRepr i.natAbs

/- ### Functional model of the submission-writing cell (Titanic cell 9)

The cell reads test.csv, consumes its first line with readline, builds
id_list as line.strip().split(",")[0] over the remaining lines, then writes
the header line followed by one f"{test_id},{c.item()}" line per pair
produced by zip(id_list, classes.ravel()). The contents of test.csv are
modelled as the list of lines the Python file iterator yields, and the
flattened classes array as a list of integers. -/

/-- The fixed header line written first into submission.csv. -/
def headerRow : List Char := "PassengerId,Survived".toList

/-- Embedding of the id extraction line.strip().split(",")[0]. -/
def stripAndTakeId (line : List Char) : List Char :=
  (pysplit ',' (pystrip line)).headD []

/-- Embedding of the id_list comprehension: the first line of test.csv has
been consumed by readline, and each remaining line contributes its stripped
first comma-field. -/
def idList (testLines : List (List Char)) : List (List Char) :=
  testLines.tail.map stripAndTakeId

/-- The data rows written into submission.csv by the write loop over
zip(id_list, classes.ravel()). -/
def submissionRows (testLines : List (List Char)) (classes : List Int) :
    List (List Char) :=
  ((idList testLines).zip classes).map fun p => p.1 ++ ',' :: intRepr p.2

/-- All lines written into submission.csv: the header, then the data rows. -/
def submissionLines (testLines : List (List Char)) (classes : List Int) :
    List (List Char) :=
  headerRow :: submissionRows testLines classes

/-- A concrete test.csv contents used to instantiate the row theorem: the
header line and one data line. -/
def tlSample : List (List Char) :=
  ["PassengerId,Pclass,Name".toList, " 892,3,Kelly".toList]

/-- A concrete predictions array used to instantiate the row theorem. -/
def csSample : List Int := [0]

/- ### Syntactic model of the authored statements

Each authored statement of the two notebooks and of run_sklearn.py is
transcribed into a small Python-statement syntax. Call arguments are
recorded by kind: a file path, a configuration value (config objects and
keyword configuration values), a plain literal, a value previously returned
by the external framework (a container holding only such values counts as
one), a deserialized pickle object, or a wrapped predictor object. -/

/-- Mode of a with open(...) statement. -/
inductive FileMode where
  | read
  | write
deriving DecidableEq

/-- Kind of an argument value handed to a library call. -/
inductive Arg where
  | path (p : String)
  | configArg
  | literal
  | frameworkValue
  | loadedPickle
  | predictorWrapper
deriving DecidableEq

mutual
/-- An authored Python statement, as transcribed from the notebook cells and
the run_sklearn.py listing. -/
inductive Stmt where
  | imp (modName : String)
  | extCallAssign (target callee : String) (args : List Arg) (kwargs : List String)
  | extCallExpr (callee : String) (args : List Arg) (kwargs : List String)
  | withOpen (path : String) (mode : FileMode) (body : Block)
  | methodExpr (callee : String)
  | assignCompr (target : String)
  | writeStr
  | forLoop (body : Block)
  | ifStmt (thenB elseB : Block)
  | assignExpr (target : String)
  | assertStmt
  | raiseStmt
  | printCall
  | tryStmt (body handler : Block)
/-- A block of statements (a with, loop, or branch body). -/
inductive Block where
  | nil
  | cons (s : Stmt) (rest : Block)
end

/-- Build a block from a list of statements. -/
def blockOf : List Stmt → Block
  | [] => .nil
  | s :: rest => .cons s (blockOf rest)

mutual
/-- Collect facts from a statement and, recursively, from every statement
nested inside it. -/
def stmtCollect {α : Type} (f : Stmt → List α) : Stmt → List α := fun s =>
  f s ++
    match s with
    | .withOpen _ _ b => blockCollect f b
    | .forLoop b => blockCollect f b
    | .ifStmt t e => blockCollect f t ++ blockCollect f e
    | .tryStmt b h => blockCollect f b ++ blockCollect f h
    | _ => []
/-- Collect facts from every statement of a block, recursively. -/
def blockCollect {α : Type} (f : Stmt → List α) : Block → List α
  | .nil => []
  | .cons s rest => stmtCollect f s ++ blockCollect f rest
end

/-- Collect facts from every statement of a program, recursively. -/
def progCollect {α : Type} (f : Stmt → List α) (l : List Stmt) : List α :=
  (l.map (stmtCollect f)).flatten

/-- Every statement of a program, nested ones included. -/
def allStmts (l : List Stmt) : List Stmt := progCollect (fun s => [s]) l

/-- Structural tag of a statement: the authored control or error-handling
constructs it is by itself. -/
def structTag : Stmt → List String
  | .forLoop _ => ["for"]
  | .ifStmt _ _ => ["if"]
  | .assignCompr _ => ["compr"]
  | .withOpen _ _ _ => ["with"]
  | .assertStmt => ["assert"]
  | .raiseStmt => ["raise"]
  | .tryStmt _ _ => ["try"]
  | _ => []

/-- All structural tags occurring in a statement, nested ones included. -/
def stmtTags (s : Stmt) : List String := stmtCollect structTag s

/-- All structural tags occurring in a program. -/
def progTags (l : List Stmt) : List String := progCollect structTag l

/-- Does a program contain an authored try, assert or raise anywhere? -/
def hasErrorHandling (l : List Stmt) : Bool :=
  (progTags l).any fun t => t = "assert" || t = "raise" || t = "try"

/-- Is a statement by itself a single external-library invocation (an import
or one call into an external library, possibly assigned)? -/
def isSingleExtInvocation : Stmt → Bool
  | .imp _ => true
  | .extCallAssign _ _ _ _ => true
  | .extCallExpr _ _ _ => true
  | _ => false

/-- The callee names of the external training framework (the cflearn API
surface) as invoked from the notebooks. -/
def frameworkCallees : List String :=
  ["seed_everything", "cflearn.MLBundledProcessorConfig", "cflearn.MLData.init.fit",
   "cflearn.MLConfig", "cflearn.api.fit_ml", "m.data.build_loader", "m.evaluate",
   "m.predict", "data.build_loader", "cflearn.api.evaluate", "cflearn.api.repeat_ml",
   "cflearn.api.load_pipelines", "cflearn.dist.ml.Experiment", "experiment.dump_data",
   "experiment.add_task", "experiment.run_tasks", "cflearn.SKLearnClassifier",
   "cflearn.GeneralEvaluationPipeline"]

/-- Is a callee name part of the external training framework? -/
def isFrameworkCallee (c : String) : Bool := frameworkCallees.contains c

/-- The path argument of an argument kind, when it is one. -/
def argPath : Arg → Option String
  | .path p => some p
  | _ => none

/-- File paths a single statement reads: path arguments of its call, or the
path of a with open(..., "r"). -/
def readPathsOf : Stmt → List String
  | .extCallAssign _ _ args _ => args.filterMap argPath
  | .extCallExpr _ args _ => args.filterMap argPath
  | .withOpen p .read _ => [p]
  | _ => []

/-- File paths a single statement writes: the path of a with open(..., "w"). -/
def writePathsOf : Stmt → List String
  | .withOpen p .write _ => [p]
  | _ => []

/-- All file paths a program reads, in program order. -/
def filesRead (l : List Stmt) : List String := progCollect readPathsOf l

/-- All file paths a program writes, in program order. -/
def filesWritten (l : List Stmt) : List String := progCollect writePathsOf l

/-- The argument kinds a single statement hands to the external framework,
paired with the callee. -/
def frameworkArgsOf : Stmt → List (String × Arg)
  | .extCallAssign _ callee args _ =>
    if isFrameworkCallee callee then args.map fun a => (callee, a) else []
  | .extCallExpr callee args _ =>
    if isFrameworkCallee callee then args.map fun a => (callee, a) else []
  | _ => []

/-- All argument kinds a program hands to the external framework. -/
def frameworkArgs (l : List Stmt) : List (String × Arg) :=
  progCollect frameworkArgsOf l

/-- Is an argument kind a file path, a configuration value, a literal or a
framework-returned value (rather than a foreign constructed object)? -/
def isBenignArg : Arg → Bool
  | .loadedPickle => false
  | .predictorWrapper => false
  | _ => true

/-- Keyword-argument names that request concurrency from the framework. -/
def concurrencyKwargNames : List String := ["num_jobs"]

/-- Concurrency-requesting keyword arguments of a single statement, paired
with the callee. -/
def concurrencyKwargsOf : Stmt → List (String × String)
  | .extCallAssign _ callee _ kwargs =>
    (kwargs.filter fun k => concurrencyKwargNames.contains k).map fun k => (callee, k)
  | .extCallExpr callee _ kwargs =>
    (kwargs.filter fun k => concurrencyKwargNames.contains k).map fun k => (callee, k)
  | _ => []

/-- All concurrency-requesting keyword arguments of a program. -/
def concurrencyRequests (l : List Stmt) : List (String × String) :=
  progCollect concurrencyKwargsOf l

/- ### Transcription of the Titanic notebook -/

/-- Titanic cell 4: config = cflearn.MLConfig(eight keyword settings). -/
def titanicMLConfigStmt : Stmt :=
  .extCallAssign "config" "cflearn.MLConfig"
    [.configArg, .configArg, .configArg, .configArg, .configArg, .configArg,
     .configArg, .configArg]
    ["model_name", "model_config", "loss_name", "metric_names", "lr",
     "optimizer_name", "optimizer_config", "global_encoder_settings"]

/-- Titanic cell 5: m = cflearn.api.fit_ml(data, config=config). -/
def titanicFitStmt : Stmt :=
  .extCallAssign "m" "cflearn.api.fit_ml" [.frameworkValue, .configArg] ["config"]

/-- Titanic cell 7, second line: predictions = m.predict(loader)[PREDICTIONS_KEY]. -/
def titanicPredictStmt : Stmt :=
  .extCallAssign "predictions" "m.predict" [.frameworkValue] []

/-- Titanic cell 9, first with-block: read test.csv, consume the header line,
build id_list by a comprehension. -/
def titanicReadTestIds : Stmt :=
  .withOpen "test.csv" .read
    (blockOf [.methodExpr "f.readline", .assignCompr "id_list"])

/-- Titanic cell 9, second with-block: write the header string and then one
formatted line per zipped pair. -/
def titanicWriteSubmission : Stmt :=
  .withOpen "submission.csv" .write
    (blockOf [.writeStr, .forLoop (blockOf [.writeStr])])

/-- The code statements of the Titanic notebook, in cell order. -/
def titanicProgram : List Stmt :=
  [.imp "torch", .imp "cflearn", .imp "numpy",
   .imp "cflearn.misc.toolkit.seed_everything",
   .extCallExpr "seed_everything" [.literal] [],
   .extCallAssign "processor_config" "cflearn.MLBundledProcessorConfig"
     [.configArg] ["label_names"],
   .extCallAssign "data" "cflearn.MLData.init.fit"
     [.configArg, .path "train.csv"] ["processor_config"],
   titanicMLConfigStmt,
   titanicFitStmt,
   .extCallAssign "loader" "m.data.build_loader" [.path "train.csv"] [],
   .extCallExpr "m.evaluate" [.frameworkValue] [],
   .extCallAssign "loader" "m.data.build_loader" [.path "test.csv"] [],
   titanicPredictStmt,
   .extCallAssign "probabilities" "m.predict" [.frameworkValue, .configArg]
     ["return_probabilities"],
   .extCallAssign "classes" "m.predict" [.frameworkValue, .configArg]
     ["return_classes"],
   .printCall, .printCall,
   titanicReadTestIds,
   titanicWriteSubmission]

/- ### Transcription of the Iris notebook -/

/-- Iris cell-21 for-loop: for each workspace, if the model is a
scikit-learn one, open its sk_model.pkl and wrap the deserialized model into
framework pipeline objects. -/
def irisLoadPipelinesLoop : Stmt :=
  .forLoop (blockOf
    [.assignExpr "model",
     .ifStmt (blockOf
       [.extCallAssign "model_file" "os.path.join" [.frameworkValue, .literal] [],
        .withOpen "sk_model.pkl" .read (blockOf
          [.extCallAssign "predictor" "cflearn.SKLearnClassifier"
             [.loadedPickle] [],
           .extCallAssign "pipelines[model]" "cflearn.GeneralEvaluationPipeline"
             [.configArg, .predictorWrapper] []])])
       .nil])

/-- The code statements of the Iris notebook, in cell order. -/
def irisProgram : List Stmt :=
  [.imp "os", .imp "torch", .imp "pickle", .imp "cflearn", .imp "numpy",
   .imp "cflearn.misc.toolkit.seed_everything",
   .extCallExpr "seed_everything" [.literal] [],
   .extCallAssign "processor_config" "cflearn.MLBundledProcessorConfig"
     [.configArg, .configArg] ["has_header", "num_split"],
   .extCallAssign "data" "cflearn.MLData.init.fit"
     [.configArg, .path "iris.data"] ["processor_config"],
   .extCallAssign "config" "cflearn.MLConfig"
     [.configArg, .configArg, .configArg, .configArg]
     ["model_name", "model_config", "loss_name", "metric_names"],
   .extCallAssign "m" "cflearn.api.fit_ml" [.frameworkValue, .configArg] ["config"],
   .assignExpr "data", .assignExpr "x_train", .printCall, .printCall,
   .assignExpr "data", .assignExpr "x_train", .assignExpr "x_valid",
   .extCallAssign "stacked" "np.vstack" [.frameworkValue] [],
   .printCall, .printCall,
   .extCallAssign "loader" "data.build_loader" [.path "iris.data"] [],
   .extCallAssign "predictions" "m.predict" [.frameworkValue] [],
   .extCallExpr "cflearn.api.evaluate" [.frameworkValue, .frameworkValue] [],
   .extCallAssign "results" "cflearn.api.repeat_ml"
     [.frameworkValue, .configArg, .configArg] ["num_repeat"],
   .extCallAssign "pipelines" "cflearn.api.load_pipelines" [.frameworkValue] [],
   .extCallExpr "cflearn.api.evaluate" [.frameworkValue, .frameworkValue] [],
   .assignExpr "models",
   .extCallAssign "results" "cflearn.api.repeat_ml"
     [.frameworkValue, .configArg, .configArg, .configArg]
     ["models", "num_repeat"],
   .extCallAssign "pipelines" "cflearn.api.load_pipelines" [.frameworkValue] [],
   .extCallExpr "cflearn.api.evaluate" [.frameworkValue, .frameworkValue] [],
   .extCallAssign "results" "cflearn.api.repeat_ml"
     [.frameworkValue, .configArg, .configArg, .configArg, .configArg]
     ["models", "num_repeat", "num_jobs"],
   .extCallAssign "experiment" "cflearn.dist.ml.Experiment" [] [],
   .extCallAssign "data_folder" "experiment.dump_data" [.frameworkValue] [],
   .extCallExpr "experiment.add_task" [.literal, .configArg, .frameworkValue]
     ["model", "config", "data_folder"],
   .extCallExpr "experiment.add_task" [.literal, .configArg, .frameworkValue]
     ["model", "config", "data_folder"],
   .assignExpr "run_command", .assignExpr "common_kwargs",
   .extCallExpr "experiment.add_task" [.literal, .literal, .frameworkValue]
     ["model", "run_command", "data_folder"],
   .extCallExpr "experiment.add_task" [.literal, .literal, .frameworkValue]
     ["model", "run_command", "data_folder"],
   .extCallAssign "results" "experiment.run_tasks" [] [],
   .extCallAssign "pipelines" "cflearn.api.load_pipelines" [.frameworkValue] [],
   irisLoadPipelinesLoop,
   .extCallExpr "cflearn.api.evaluate" [.frameworkValue, .frameworkValue] []]

/- ### Transcription of the run_sklearn.py listing (Iris cell-18) -/

/-- The statements of the authored helper script run_sklearn.py, as listed in
the Iris notebook. -/
def runSklearnProgram : List Stmt :=
  [.imp "os", .imp "pickle", .imp "numpy",
   .imp "sklearn.tree.DecisionTreeClassifier",
   .imp "sklearn.ensemble.RandomForestClassifier",
   .imp "cflearn.constants.INPUT_KEY", .imp "cflearn.constants.LABEL_KEY",
   .imp "cflearn.dist.ml.runs._utils.get_info",
   .ifStmt (blockOf
     [.extCallAssign "info" "get_info" [] [],
      .assignExpr "meta",
      .assignExpr "data",
      .assertStmt,
      .extCallExpr "data.prepare" [.literal] [],
      .extCallAssign "loader" "data.initialize" [] [],
      .extCallAssign "dataset" "loader.get_full_batch" [] [],
      .assignExpr "x, y",
      .assertStmt,
      .assertStmt,
      .assignExpr "model",
      .ifStmt (blockOf [.assignExpr "base"])
        (blockOf [.ifStmt (blockOf [.assignExpr "base"])
          (blockOf [.raiseStmt])]),
      .extCallAssign "sk_model" "base" [] [],
      .extCallExpr "sk_model.fit" [.frameworkValue, .frameworkValue] [],
      .withOpen "sk_model.pkl" .write
        (blockOf [.extCallExpr "pickle.dump" [.frameworkValue, .frameworkValue] []])])
     .nil]

/- ### Step order in the Titanic notebook -/

/-- The four named steps of the Titanic workflow. -/
inductive Step where
  | buildConfig
  | fit
  | predict
  | writeCSV
deriving DecidableEq

/-- Classify a Titanic statement as one of the four named steps: a config
construction, the cflearn.api.fit_ml call, an m.predict call, or the CSV
write. -/
def stepOf : Stmt → Option Step
  | .extCallAssign _ callee _ _ =>
    if callee = "cflearn.MLBundledProcessorConfig" || callee = "cflearn.MLConfig" then
      some .buildConfig
    else if callee = "cflearn.api.fit_ml" then some .fit
    else if callee = "m.predict" then some .predict
    else none
  | .withOpen _ .write _ => some .writeCSV
  | _ => none

/-- The sequence of named steps of the Titanic notebook, in program order. -/
def titanicSteps : List Step := titanicProgram.filterMap stepOf

/-- Position of a step in the order claimed by the specification. -/
def stepIdx : Step → Nat
  | .buildConfig => 0
  | .fit => 1
  | .predict => 2
  | .writeCSV => 3

/- ### Embedding of the Dockerfile -/

/-- An instruction of the repository Dockerfile. -/
inductive DockerInstr where
  | fromImage (img : String)
  | workdir (dir : String)
  | copyAll
  | runAptUpdate
  | runAptInstall (pkg : String)
  | runPipUpgrade (pkg : String)
  | runPipInstallLocal
  | runPipInstall (pkg : String)
deriving DecidableEq

/-- The Dockerfile, instruction by instruction. -/
def dockerfile : List DockerInstr :=
  [.fromImage "nvcr.io/nvidia/pytorch:21.07-py3",
   .workdir "/usr/home",
   .copyAll,
   .runAptUpdate,
   .runAptInstall "htop",
   .runAptInstall "git",
   .runAptInstall "ssh",
   .runAptInstall "tmux",
   .runPipUpgrade "pip",
   .runPipInstallLocal,
   .runPipInstall "gpustat"]

/-- Is a Dockerfile instruction a package install? -/
def isPackageInstall : DockerInstr → Bool
  | .runAptInstall _ => true
  | .runPipUpgrade _ => true
  | .runPipInstallLocal => true
  | .runPipInstall _ => true
  | _ => false

/-- Is a Dockerfile instruction the base-image declaration or the repository
copy? -/
def isBaseOrCopy : DockerInstr → Bool
  | .fromImage _ => true
  | .copyAll => true
  | _ => false

/-- The apt package a Dockerfile instruction installs, when it is an apt
install. -/
def aptPkgOf : DockerInstr → Option String
  | .runAptInstall p => some p
  | _ => none

/-- The pip package a Dockerfile instruction installs, when it is a pip
install; the local repository install is recorded as ".". -/
def pipPkgOf : DockerInstr → Option String
  | .runPipUpgrade p => some p
  | .runPipInstallLocal => some "."
  | .runPipInstall p => some p
  | _ => none

/- ### Lemmas about the string primitives -/

/-- Python split never yields an empty list of pieces. -/
theorem pysplit_ne_nil (sep : Char) (s : List Char) : pysplit sep s ≠ [] := by
  cases s with
  | nil => simp [pysplit]
  | cons c rest =>
    simp only [pysplit]
    split <;> simp

/-- The number of pieces split yields is one more than the number of
separators. -/
theorem length_pysplit (sep : Char) (s : List Char) :
    (pysplit sep s).length = s.count sep + 1 := by
  induction s with
  | nil => simp [pysplit]
  | cons c rest ih =>
    simp only [pysplit]
    by_cases h : c = sep
    · simp [h, List.count_cons, ih]
    · have ht : (pysplit sep rest).tail.length = rest.count sep := by
        rw [List.length_tail, ih]
        omega
      simp [h, List.count_cons, ht]

/-- The first piece of a split is the prefix before the first separator. -/
theorem headD_pysplit (sep : Char) (s : List Char) :
    (pysplit sep s).headD [] = s.takeWhile fun c => c != sep := by
  induction s with
  | nil => simp [pysplit]
  | cons c rest ih =>
    simp only [pysplit, List.takeWhile_cons]
    by_cases h : c = sep
    · simp [h]
    · simp only [h, if_neg h, List.headD_cons]
      simp [h]
      simpa using ih

/-- The separator does not occur in the first piece of a split. -/
theorem count_headD_pysplit (sep : Char) (s : List Char) :
    ((pysplit sep s).headD []).count sep = 0 := by
  rw [headD_pysplit, List.count_eq_zero]
  intro hmem
  have := List.mem_takeWhile_imp hmem
  simp at this

/-- Digit characters are never a comma. -/
theorem digitChar_ne_comma (d : Nat) : digitChar d ≠ ',' := by
  unfold digitChar
  repeat' split
  all_goals decide

/-- The decimal rendering of a natural number contains no comma. -/
theorem count_natReprAux (fuel n : Nat) : (natReprAux fuel n).count ',' = 0 := by
  induction fuel generalizing n with
  | zero => simp [natReprAux]
  | succ f ih =>
    simp only [natReprAux]
    split
    · simp [List.count_cons, digitChar_ne_comma]
    · simp [List.count_append, List.count_cons, ih, digitChar_ne_comma]

/-- The decimal rendering of an integer contains no comma. -/
theorem count_intRepr (i : Int) : (intRepr i).count ',' = 0 := by
  unfold intRepr
  split
  · simp [List.count_cons, natRepr, count_natReprAux]
  · simp [natRepr, count_natReprAux]

/-- Zipping ignores the part of the right list beyond the left list's
length. -/
theorem zip_take_right {α β : Type} (l : List α) (c : List β) :
    l.zip (c.take l.length) = l.zip c := by
  induction l generalizing c with
  | nil => simp
  | cons a l ih =>
    cases c with
    | nil => simp
    | cons b c => simp [ih]

/-- Zipping ignores the part of the left list beyond the right list's
length. -/
theorem zip_take_left {α β : Type} (l : List α) (c : List β) :
    (l.take c.length).zip c = l.zip c := by
  induction l generalizing c with
  | nil => simp
  | cons a l ih =>
    cases c with
    | nil => simp
    | cons b c => simp [ih]

/- ### Claim theorems: the submission-writing cell -/

/-- C1: the submission-writing step writes submission.csv with the fixed
two-column header PassengerId,Survived as its first line, and every
subsequent line it writes has exactly two comma-separated fields. -/
theorem claim1_submission_header_and_two_fields
    (tl : List (List Char)) (cs : List Int) :
    (submissionLines tl cs).head? = some headerRow ∧
    ((submissionLines tl cs).tail.all fun row =>
      (pysplit ',' row).length == 2) = true := by
  constructor
  · rfl
  · rw [List.all_eq_true]
    intro row hrow
    simp only [submissionLines, List.tail_cons, submissionRows, List.mem_map] at hrow
    obtain ⟨⟨a, b⟩, hp, rfl⟩ := hrow
    have ha : a ∈ idList tl := (List.of_mem_zip hp).1
    simp only [idList, List.mem_map] at ha
    obtain ⟨line, _, rfl⟩ := ha
    rw [beq_iff_eq, length_pysplit]
    have hc : (stripAndTakeId line).count ',' = 0 :=
      count_headD_pysplit ',' (pystrip line)
    simp [List.count_append, List.count_cons, hc, count_intRepr]

/-- C9: the number of data rows written to submission.csv is the minimum of
the number of test.csv lines after the first and the number of predicted
classes; surplus predictions and surplus test lines are silently ignored. -/
theorem claim9_row_count_is_min (tl : List (List Char)) (cs : List Int) :
    (submissionRows tl cs).length = min tl.tail.length cs.length ∧
    submissionRows tl (cs.take tl.tail.length) = submissionRows tl cs ∧
    submissionRows (tl.take (cs.length + 1)) cs = submissionRows tl cs := by
  have hlen : (idList tl).length = tl.tail.length := by
    simp [idList]
  refine ⟨?_, ?_, ?_⟩
  · simp [submissionRows, idList]
  · unfold submissionRows
    rw [← hlen, zip_take_right]
  · unfold submissionRows
    have hil : idList (tl.take (cs.length + 1)) = (idList tl).take cs.length := by
      cases tl with
      | nil => simp [idList]
      | cons hd t => simp [idList, List.map_take]
    rw [hil, zip_take_left]

/-- C10: the i-th data row of submission.csv is the string id,c where id is
the (i+1)-th line of test.csv stripped of surrounding whitespace and
truncated at its first comma, and c is the i-th predicted class; rows keep
the input file order. -/
theorem claim10_row_content (tl : List (List Char)) (cs : List Int) (i : Nat)
    (h : i < (submissionRows tl cs).length) :
    (submissionRows tl cs).getD i [] =
      ((pystrip (tl.getD (i + 1) [])).takeWhile fun c => c != ',') ++
        ',' :: intRepr (cs.getD i 0) := by
  have hlen : (submissionRows tl cs).length = min tl.tail.length cs.length := by
    simp [submissionRows, idList]
  rw [hlen] at h
  have hcs : i < cs.length := lt_of_lt_of_le h (min_le_right _ _)
  have htail : i < tl.tail.length := lt_of_lt_of_le h (min_le_left _ _)
  have htl : i + 1 < tl.length := by
    rw [List.length_tail] at htail
    omega
  have hzip : i < ((idList tl).zip cs).length := by
    simp [List.length_zip, idList]
    omega
  have hid : i < (idList tl).length := by
    simp [idList]
    omega
  rw [List.getD_eq_getElem _ _ (by simpa [submissionRows] using hzip),
    List.getD_eq_getElem _ _ hcs, List.getD_eq_getElem _ _ htl]
  simp only [submissionRows, List.getElem_map, List.getElem_zip]
  have hidval : (idList tl)[i] = stripAndTakeId (tl[i + 1]) := by
    simp only [idList, List.getElem_map]
    congr 1
    cases tl with
    | nil => simp at htl
    | cons hd t => simp
  rw [hidval, stripAndTakeId, headD_pysplit]

/-- C10 witness: the theorem instantiated on a concrete test.csv with one
data line " 892,3,Kelly" and one predicted class 0. -/
theorem claim10_row_content_witness :
    0 < (submissionRows tlSample csSample).length ∧
    (submissionRows tlSample csSample).getD 0 [] =
      ((pystrip (tlSample.getD 1 [])).takeWhile fun c => c != ',') ++
        ',' :: intRepr (csSample.getD 0 0) :=
  ⟨by decide, claim10_row_content tlSample csSample 0 (by decide)⟩

/- ### Claim theorems: authored statements, step order, files, Dockerfile -/

/-- C2 counterexample: not every authored notebook statement is a single
external-library invocation; in particular the submission-writing operation
is authored file I/O with a comprehension and a write loop, not an external
call. -/
theorem claim2_counterexample :
    ((allStmts (titanicProgram ++ irisProgram)).all isSingleExtInvocation) = false ∧
    isSingleExtInvocation titanicWriteSubmission = false := by
  exact ⟨rfl, rfl⟩

/-- C2 amended: building a config, fitting and predicting are each single
external-API calls, but writing the submission file is not (it is authored
file I/O with a list comprehension and a write loop), the iris
pipeline-loading cell contains an authored for loop with an if branch, and
exactly 25 of the authored notebook statements, nested ones included, are
not single external-library invocations. -/
theorem claim2_single_invocations_amended :
    isSingleExtInvocation titanicMLConfigStmt = true ∧
    isSingleExtInvocation titanicFitStmt = true ∧
    isSingleExtInvocation titanicPredictStmt = true ∧
    isSingleExtInvocation titanicReadTestIds = false ∧
    isSingleExtInvocation titanicWriteSubmission = false ∧
    (stmtTags titanicReadTestIds).contains "compr" = true ∧
    (stmtTags titanicWriteSubmission).contains "for" = true ∧
    (stmtTags irisLoadPipelinesLoop).contains "for" = true ∧
    (stmtTags irisLoadPipelinesLoop).contains "if" = true ∧
    ((allStmts (titanicProgram ++ irisProgram)).filter fun s =>
      !(isSingleExtInvocation s)).length = 25 := by
  exact ⟨rfl, rfl, rfl, rfl, rfl, rfl, rfl, rfl, rfl, rfl⟩

/-- C3 counterexample: the authored code of the repository does contain
assertions and a raise statement, in the authored script run_sklearn.py
listed by the iris notebook. -/
theorem claim3_counterexample :
    hasErrorHandling (titanicProgram ++ irisProgram ++ runSklearnProgram) = true := by
  exact rfl

/-- C3 amended: no notebook code cell contains a try/except, an assertion or
a raise, but the authored script run_sklearn.py contains three assert
statements and a raise NotImplementedError (and no try/except). -/
theorem claim3_error_handling_amended :
    hasErrorHandling (titanicProgram ++ irisProgram) = false ∧
    (progTags runSklearnProgram).count "assert" = 3 ∧
    (progTags runSklearnProgram).contains "raise" = true ∧
    (progTags runSklearnProgram).contains "try" = false := by
  exact ⟨rfl, rfl, rfl, rfl⟩

/-- C4: in the Titanic notebook the named steps occur in the order
build-config (twice: the processor config and the model config), fit,
predict (three times), write-CSV, and the resulting step sequence is
monotone in the claimed order. -/
theorem claim4_step_order :
    titanicSteps =
      [.buildConfig, .buildConfig, .fit, .predict, .predict, .predict, .writeCSV] ∧
    titanicSteps.Pairwise fun a b => stepIdx a ≤ stepIdx b := by
  exact ⟨rfl, by decide⟩

/-- C5 counterexample: the iris notebook also reads the pickled model file
sk_model.pkl, which is none of train.csv, test.csv, iris.data. -/
theorem claim5_counterexample :
    ((filesRead (titanicProgram ++ irisProgram)).all fun f =>
      ["train.csv", "test.csv", "iris.data"].contains f) = false ∧
    (filesRead irisProgram).contains "sk_model.pkl" = true := by
  exact ⟨rfl, rfl⟩

/-- C5 amended: the notebooks read exactly train.csv, test.csv, iris.data
and sk_model.pkl; the notebooks write only submission.csv; the authored
script writes sk_model.pkl; and no authored code ever writes any of the
three dataset files. -/
theorem claim5_files_read_written_amended :
    filesRead (titanicProgram ++ irisProgram) =
      ["train.csv", "train.csv", "test.csv", "test.csv",
       "iris.data", "iris.data", "sk_model.pkl"] ∧
    filesWritten (titanicProgram ++ irisProgram) = ["submission.csv"] ∧
    filesWritten runSklearnProgram = ["sk_model.pkl"] ∧
    (["train.csv", "test.csv", "iris.data"].all fun f =>
      !((filesWritten (titanicProgram ++ irisProgram ++ runSklearnProgram)).contains f)) =
      true := by
  exact ⟨rfl, rfl, rfl, rfl⟩

/-- C6 counterexample: the iris pipeline-loading cell hands the framework a
deserialized pickle model (to cflearn.SKLearnClassifier), so the notebooks
do not pass only file paths, configuration values, literals and
framework-returned values into the framework. -/
theorem claim6_counterexample :
    ((frameworkArgs (titanicProgram ++ irisProgram)).all fun p =>
      isBenignArg p.2) = false ∧
    ("cflearn.SKLearnClassifier", Arg.loadedPickle) ∈
      frameworkArgs irisProgram := by
  exact ⟨rfl, by decide⟩

/-- C6 amended: every argument the Titanic notebook hands the framework is a
file path, a configuration value, a literal or a framework-returned value,
and the only iris arguments outside those kinds are the deserialized
scikit-learn model handed to cflearn.SKLearnClassifier and the wrapped
predictor handed to cflearn.GeneralEvaluationPipeline. -/
theorem claim6_framework_arguments_amended :
    ((frameworkArgs titanicProgram).all fun p => isBenignArg p.2) = true ∧
    ((frameworkArgs irisProgram).filter fun p => !(isBenignArg p.2)) =
      [("cflearn.SKLearnClassifier", .loadedPickle),
       ("cflearn.GeneralEvaluationPipeline", .predictorWrapper)] := by
  exact ⟨rfl, rfl⟩

/-- C7: across all authored code the only concurrency-requesting keyword
argument is the single num_jobs keyword of one call to the
external-framework function cflearn.api.repeat_ml. -/
theorem claim7_concurrency_single_kwarg :
    concurrencyRequests (titanicProgram ++ irisProgram ++ runSklearnProgram) =
      [("cflearn.api.repeat_ml", "num_jobs")] ∧
    isFrameworkCallee "cflearn.api.repeat_ml" = true := by
  exact ⟨rfl, rfl⟩

/-- C8 counterexample: the Dockerfile contains a build step beyond copying
that is not a package install: the WORKDIR instruction (and likewise the
apt-get update step installs nothing). -/
theorem claim8_counterexample :
    (dockerfile.all fun i => isBaseOrCopy i || isPackageInstall i) = false ∧
    DockerInstr.workdir "/usr/home" ∈ dockerfile ∧
    isPackageInstall (.workdir "/usr/home") = false ∧
    isPackageInstall .runAptUpdate = false := by
  refine ⟨rfl, by decide, rfl, rfl⟩

/-- C8 amended: the image is derived from the NVIDIA PyTorch base image, and
beyond the base and the repository copy every build step is a working
directory setting, an apt package-list update, or a package install; the apt
installs are exactly htop, git, ssh, tmux and the pip installs exactly pip,
the repository itself and gpustat. -/
theorem claim8_dockerfile_steps_amended :
    dockerfile.head? = some (.fromImage "nvcr.io/nvidia/pytorch:21.07-py3") ∧
    (dockerfile.all fun i =>
      isBaseOrCopy i || isPackageInstall i ||
        i == .workdir "/usr/home" || i == .runAptUpdate) = true ∧
    dockerfile.filterMap aptPkgOf = ["htop", "git", "ssh", "tmux"] ∧
    dockerfile.filterMap pipPkgOf = ["pip", ".", "gpustat"] := by
  exact ⟨rfl, rfl, rfl, rfl⟩
